import Mathlib

/-!
Verification of the drawing-canvas (grid rendering, grid snapping, canvas
state) and the DWG/PDF loader of the repository.

The canvas code lives in `src/main.py` (`DrawingView`): `_grid_snap`,
`mouseMoveEvent`, `set_snap_enabled`, `set_snap_mode`, `drawBackground`.
The loader lives in `src/core/cat_loader.py` (`cargar_archivo`,
`_cargar_dwg`, `_cargar_pdf`, `LoadResult`, `LoadError`).

Conventions of the embedding:
  * World and pixel coordinates are rationals (the Python code computes with
    floats; the embedding uses exact arithmetic).
  * Python's builtin `round` is round-half-to-even (`pyround`).
  * Python's `int(...)` on a float truncates toward zero (`pyint`); `%` on
    integers with a positive modulus returns the representative in `[0, s)`,
    which coincides with Lean's `Int.emod`.
  * Qt's view transform (only `scale` is ever applied in the source, so it is
    diagonal) is an affine map per axis: `pixel = s * world + d`.
  * Qt's pixel quantization of `mapFromScene` to integer points is not
    modelled: pixel positions stay rational.
-/

/-- Python's builtin `round`: round half to even. -/
def pyround (q : ℚ) : ℤ :=
  if Int.fract q < 1/2 then ⌊q⌋
  else if 1/2 < Int.fract q then ⌊q⌋ + 1
  else if ⌊q⌋ % 2 = 0 then ⌊q⌋ else ⌊q⌋ + 1

/-- Python's `int(...)` applied to a real number: truncation toward zero. -/
def pyint (q : ℚ) : ℤ := if 0 ≤ q then ⌊q⌋ else -⌊-q⌋

/-- `QPoint.manhattanLength`: `|x| + |y|`. -/
def manhattanLength (p : ℚ × ℚ) : ℚ := |p.1| + |p.2|

/-- The view transform of the `QGraphicsView`: the source only ever calls
`scale(factor, factor)`, so the transform is diagonal-affine per axis. -/
structure ViewT where
  sx : ℚ
  sy : ℚ
  dx : ℚ
  dy : ℚ
deriving DecidableEq

/-- `QGraphicsView.mapFromScene`: world (scene) to pixel (viewport). -/
def mapFromScene (T : ViewT) (w : ℚ × ℚ) : ℚ × ℚ :=
  (T.sx * w.1 + T.dx, T.sy * w.2 + T.dy)

/-- `QGraphicsView.mapToScene`: pixel (viewport) to world (scene). -/
def mapToScene (T : ViewT) (p : ℚ × ℚ) : ℚ × ℚ :=
  ((p.1 - T.dx) / T.sx, (p.2 - T.dy) / T.sy)

/-- `SnapMode` from `src/main.py`. -/
inductive SnapMode where
  | NONE
  | GRID
deriving DecidableEq

/-- The state of `DrawingView` relevant to grid snapping (`src/main.py`,
`__init__`).  `pointer` records the pixel position of the last mouse event
(`event.pos()`), which the Python object does not store explicitly but which
the invariant claims quantify over. -/
structure CanvasState where
  grid_minor : ℚ
  snap_enabled : Bool
  snap_mode : SnapMode
  snap_tolerance_pixels : ℚ
  snap_point : Option (ℚ × ℚ)
  crosshair_pos : ℚ × ℚ
  pointer : ℚ × ℚ
  view : ViewT
deriving DecidableEq

/-- `DrawingView._grid_snap`: round each world coordinate to the grid. -/
def grid_snap (grid_minor : ℚ) (point : ℚ × ℚ) : ℚ × ℚ :=
  ((pyround (point.1 / grid_minor) : ℚ) * grid_minor,
   (pyround (point.2 / grid_minor) : ℚ) * grid_minor)

/-- The snap decision made inside `DrawingView.mouseMoveEvent`
(`src/main.py` lines 231-243): only in GRID mode with snapping enabled is the
candidate computed, and it is kept exactly when the pixel-space Manhattan
distance to the pointer is within tolerance. -/
def snapDecision (st : CanvasState) (pos : ℚ × ℚ) : Option (ℚ × ℚ) :=
  if st.snap_enabled = true ∧ st.snap_mode = SnapMode.GRID then
    if manhattanLength
        (mapFromScene st.view (grid_snap st.grid_minor (mapToScene st.view pos)) - pos)
        ≤ st.snap_tolerance_pixels then
      some (grid_snap st.grid_minor (mapToScene st.view pos))
    else
      none
  else
    none

/-- The payload of the `mouseMoved` signal
(`x_snapped, y_snapped, snapped, raw_x, raw_y`). -/
structure MouseMoved where
  x : ℚ
  y : ℚ
  snapped : Bool
  raw_x : ℚ
  raw_y : ℚ
deriving DecidableEq

/-- `DrawingView.mouseMoveEvent`: updates `_snap_point` and `_crosshair_pos`
and emits the `mouseMoved` signal. -/
def mouseMoveEvent (st : CanvasState) (pos : ℚ × ℚ) : CanvasState × MouseMoved :=
  match snapDecision st pos with
  | some sp =>
      ({ st with snap_point := some sp, crosshair_pos := sp, pointer := pos },
       { x := sp.1, y := sp.2, snapped := true,
         raw_x := (mapToScene st.view pos).1, raw_y := (mapToScene st.view pos).2 })
  | none =>
      ({ st with snap_point := none, crosshair_pos := mapToScene st.view pos,
                 pointer := pos },
       { x := (mapToScene st.view pos).1, y := (mapToScene st.view pos).2,
         snapped := false,
         raw_x := (mapToScene st.view pos).1, raw_y := (mapToScene st.view pos).2 })

/-- `DrawingView.set_snap_enabled`: disabling clears the stored snap point. -/
def set_snap_enabled (st : CanvasState) (enabled : Bool) : CanvasState :=
  { st with snap_enabled := enabled,
            snap_point := if enabled then st.snap_point else none }

/-- `DrawingView.set_snap_mode`: stores the mode; the stored snap point is
left untouched (the Python method only refreshes the marker item). -/
def set_snap_mode (st : CanvasState) (mode : SnapMode) : CanvasState :=
  { st with snap_mode := mode }

/-- The state of a fresh `DrawingView` (`__init__`): grid spacing 25,
snap enabled, GRID mode, tolerance 14 px, identity view transform. -/
def initialCanvas : CanvasState :=
  { grid_minor := 25
    snap_enabled := true
    snap_mode := SnapMode.GRID
    snap_tolerance_pixels := 14
    snap_point := none
    crosshair_pos := (0, 0)
    pointer := (0, 0)
    view := { sx := 1, sy := 1, dx := 0, dy := 0 } }

/-- The invariant asserted by claim C2: the stored snap point is present iff
the mode is GRID, snapping is enabled, and the grid candidate for the current
pointer is within tolerance in pixel space. -/
def snapInvariant (st : CanvasState) : Prop :=
  st.snap_point.isSome = true ↔
    (st.snap_mode = SnapMode.GRID ∧ st.snap_enabled = true ∧
     manhattanLength
         (mapFromScene st.view
           (grid_snap st.grid_minor (mapToScene st.view st.pointer)) - st.pointer)
       ≤ st.snap_tolerance_pixels)

/-- The line-generation loop of `DrawingView.drawBackground`
(`src/main.py` lines 183-187 and 193-197): starting at `x`, emit a line and a
major flag (`idx % k == 0`) while `x ≤ limit`, stepping by the spacing `s`.
Termination needs `0 < s`, which holds for the hard-coded spacing 25. -/
def gridLoop (s : ℤ) (hs : 0 < s) (k : ℕ) (limit : ℚ) (x : ℤ) (idx : ℕ) :
    List (ℤ × Bool) :=
  if h : (x : ℚ) ≤ limit then
    (x, decide (idx % k = 0)) :: gridLoop s hs k limit (x + s) (idx + 1)
  else
    []
termination_by (⌊limit⌋ + 1 - x).toNat
decreasing_by
  have hx : x ≤ ⌊limit⌋ := Int.le_floor.mpr h
  omega

/-- The start coordinate of `drawBackground`:
`int(rect.left()) - (int(rect.left()) % self.grid_minor)`, with Python's
truncating `int` and non-negative `%`. -/
def gridStart (s : ℤ) (m : ℚ) : ℤ := pyint m - pyint m % s

/-- One axis of `drawBackground`: lines from the modulo-aligned start up to
the maximum, with 0-based major classification. -/
def gridAxisLines (s : ℤ) (hs : 0 < s) (k : ℕ) (lo hi : ℚ) : List (ℤ × Bool) :=
  gridLoop s hs k hi (gridStart s lo) 0

/-- `self.grid_minor`, set to 25 in `DrawingView.__init__` and never
reassigned anywhere in the source. -/
def DrawingView.grid_minor : ℤ := 25

/-- `self.grid_major_factor`, set to 5 in `DrawingView.__init__` and never
reassigned. -/
def DrawingView.grid_major_factor : ℕ := 5

/-- The visible rectangle passed to `drawBackground`. -/
structure RectF where
  left : ℚ
  top : ℚ
  right : ℚ
  bottom : ℚ

/-- The two line families (vertical by `x`, horizontal by `y`) produced by
`DrawingView.drawBackground` for a visible rectangle. -/
def drawBackgroundLines (rect : RectF) : List (ℤ × Bool) × List (ℤ × Bool) :=
  (gridAxisLines DrawingView.grid_minor (by norm_num [DrawingView.grid_minor])
      DrawingView.grid_major_factor rect.left rect.right,
   gridAxisLines DrawingView.grid_minor (by norm_num [DrawingView.grid_minor])
      DrawingView.grid_major_factor rect.top rect.bottom)

/-- Closed form for the number of iterations of `gridLoop` (a helper for
stating termination and length facts). -/
def loopCount (s : ℤ) (limit : ℚ) (x : ℤ) : ℕ :=
  if (x : ℚ) ≤ limit then (⌊(limit - x) / (s : ℚ)⌋ + 1).toNat else 0

/-- Python `str.rfind` restricted to a single character: index of the last
occurrence, `-1` when absent. -/
def pyRfind (cs : List Char) (c : Char) : ℤ :=
  cs.enum.foldl (fun acc p => if p.2 = c then (p.1 : ℤ) else acc) (-1)

/-- The scan of CPython's `splitext`: some character of the basename strictly
before the last dot is not itself a dot. -/
def hasStem (cs : List Char) (sepIndex dotIndex : ℤ) : Bool :=
  (List.range cs.length).any
    (fun j => decide (sepIndex < (j : ℤ)) && decide ((j : ℤ) < dotIndex)
      && decide (cs[j]? ≠ some '.'))

/-- `os.path.splitext` (posix): split at the last dot after the last
separator, unless the basename up to that dot is all dots. -/
def splitext (p : String) : String × String :=
  if pyRfind p.data '/' < pyRfind p.data '.'
      ∧ hasStem p.data (pyRfind p.data '/') (pyRfind p.data '.') = true then
    (String.mk (p.data.take (pyRfind p.data '.').toNat),
     String.mk (p.data.drop (pyRfind p.data '.').toNat))
  else
    (p, "")

/-- Python `str.lower` (ASCII range; the extensions compared against are
ASCII). -/
def pyLower (s : String) : String := String.mk (s.data.map Char.toLower)

/-- `SUPPORTED_EXTENSIONS` from `src/core/cat_loader.py`. -/
def SUPPORTED_EXTENSIONS : List String := [".dwg", ".pdf"]

/-- The DWG payload built by `_cargar_dwg` (layer/entity details abstracted
to the entity count delivered by the parsing library). -/
structure DwgInfo where
  path : String
  total_entities : ℕ
deriving DecidableEq

/-- The PDF payload built by `_cargar_pdf`. -/
structure PdfPreview where
  path : String
  page_count : ℕ
  library : String
deriving DecidableEq

/-- `LoadError` from `src/core/cat_loader.py`. -/
structure LoadError where
  path : Option String
  message : String
  detail : Option String
deriving DecidableEq

/-- `LoadResult` from `src/core/cat_loader.py` (fields default to `None` as
in the dataclass). -/
structure LoadResult where
  path : String
  type : String
  dwg : Option DwgInfo := none
  pdf : Option PdfPreview := none
  error : Option LoadError := none
deriving DecidableEq

/-- The `ok` property of `LoadResult`: `error is None`. -/
def LoadResult.ok (r : LoadResult) : Bool := r.error.isNone

/-- The ambient execution environment of the loader: which optional
libraries import successfully, which paths exist, and the outcome of each
external parsing call (an exception raised by the library is modelled as
`Except.error` with its message). -/
structure Env where
  ezdxfAvailable : Bool
  fitzAvailable : Bool
  pypdf2Available : Bool
  isfile : String → Bool
  readDwg : String → Except String ℕ
  fitzPageCount : String → Except String ℕ
  pypdf2PageCount : String → Except String ℕ

/-- `_cargar_dwg`: missing library, missing file, then the guarded parse. -/
def _cargar_dwg (env : Env) (path : String) : DwgInfo ⊕ LoadError :=
  if env.ezdxfAvailable = false then
    Sum.inr { path := some path, message := "La librería ezdxf no está instalada.",
              detail := none }
  else if env.isfile path = false then
    Sum.inr { path := some path, message := "Archivo no encontrado", detail := none }
  else
    match env.readDwg path with
    | Except.ok n => Sum.inl { path := path, total_entities := n }
    | Except.error e =>
        Sum.inr { path := some path, message := "Error al cargar DWG", detail := some e }

/-- `_cargar_pdf`: missing file, then PyMuPDF with fallback to PyPDF2, then
the no-library error. -/
def _cargar_pdf (env : Env) (path : String) : PdfPreview ⊕ LoadError :=
  if env.isfile path = false then
    Sum.inr { path := some path, message := "Archivo no encontrado", detail := none }
  else if env.fitzAvailable then
    match env.fitzPageCount path with
    | Except.ok n => Sum.inl { path := path, page_count := n, library := "PyMuPDF" }
    | Except.error e =>
        if env.pypdf2Available = false then
          Sum.inr { path := some path, message := "Error al cargar PDF con PyMuPDF",
                    detail := some e }
        else
          match env.pypdf2PageCount path with
          | Except.ok n => Sum.inl { path := path, page_count := n, library := "PyPDF2" }
          | Except.error e2 =>
              Sum.inr { path := some path, message := "Error al cargar PDF con PyPDF2",
                        detail := some e2 }
  else if env.pypdf2Available then
    match env.pypdf2PageCount path with
    | Except.ok n => Sum.inl { path := path, page_count := n, library := "PyPDF2" }
    | Except.error e2 =>
        Sum.inr { path := some path, message := "Error al cargar PDF con PyPDF2",
                  detail := some e2 }
  else
    Sum.inr { path := some path,
              message := "No hay librerías disponibles para manejar PDF (instalar PyMuPDF o PyPDF2)",
              detail := none }

/-- `cargar_archivo`: extension dispatch over the lowered `splitext`
extension. -/
def cargar_archivo (env : Env) (path : String) : LoadResult :=
  if pyLower (splitext path).2 ∉ SUPPORTED_EXTENSIONS then
    { path := path, type := "unknown",
      error := some { path := some path,
                      message := "Extensión no soportada: " ++ pyLower (splitext path).2,
                      detail := none } }
  else if pyLower (splitext path).2 = ".dwg" then
    match _cargar_dwg env path with
    | Sum.inl info => { path := path, type := "dwg", dwg := some info }
    | Sum.inr err => { path := path, type := "dwg", error := some err }
  else if pyLower (splitext path).2 = ".pdf" then
    match _cargar_pdf env path with
    | Sum.inl info => { path := path, type := "pdf", pdf := some info }
    | Sum.inr err => { path := path, type := "pdf", error := some err }
  else
    { path := path, type := "unknown",
      error := some { path := some path, message := "Tipo no manejado", detail := none } }

/-- An environment in which everything is available and succeeds. -/
def envAllOk : Env :=
  { ezdxfAvailable := true
    fitzAvailable := true
    pypdf2Available := true
    isfile := fun _ => true
    readDwg := fun _ => Except.ok 0
    fitzPageCount := fun _ => Except.ok 1
    pypdf2PageCount := fun _ => Except.ok 1 }

/-- `pyround` lands within `1/2` of its argument. -/
theorem abs_pyround_sub_le (q : ℚ) : |(pyround q : ℚ) - q| ≤ 1/2 := by
  have hq : (⌊q⌋ : ℚ) = q - Int.fract q := by
    rw [Int.fract]; ring
  have h0 : (0:ℚ) ≤ Int.fract q := Int.fract_nonneg q
  have h1 : Int.fract q < 1 := Int.fract_lt_one q
  unfold pyround
  split_ifs with hlt hgt heven <;>
    (push_cast; rw [abs_le, hq]; constructor <;> linarith)

/-- `pyround` of an integer is that integer. -/
theorem pyround_intCast (a : ℤ) : pyround (a : ℚ) = a := by
  unfold pyround
  rw [Int.fract_intCast, Int.floor_intCast]
  norm_num

/-- `pyround q` is a nearest integer to `q`. -/
theorem pyround_nearest (q : ℚ) (b : ℤ) :
    |(pyround q : ℚ) - q| ≤ |(b : ℚ) - q| := by
  rcases eq_or_ne b (pyround q) with rfl | hne
  · exact le_refl _
  · have hz : b - pyround q ≠ 0 := sub_ne_zero.mpr hne
    have h1 : (1:ℚ) ≤ |(b:ℚ) - (pyround q : ℚ)| := by
      have h := Int.one_le_abs hz
      have h2 : ((1:ℤ):ℚ) ≤ ((|b - pyround q| : ℤ) : ℚ) := by exact_mod_cast h
      push_cast at h2
      linarith
    have h2 := abs_pyround_sub_le q
    have h3 : |(b:ℚ) - (pyround q : ℚ)| ≤ |(b:ℚ) - q| + |q - (pyround q : ℚ)| :=
      abs_sub_le _ _ _
    have h4 : |q - (pyround q : ℚ)| = |(pyround q : ℚ) - q| := abs_sub_comm _ _
    linarith

/-- The `x`-coordinate snapped by `_grid_snap` is within half a grid spacing
of the raw coordinate. -/
theorem grid_snap_coord_close (s : ℚ) (hs : 0 < s) (x : ℚ) :
    |(pyround (x / s) : ℚ) * s - x| ≤ s / 2 := by
  have h := abs_pyround_sub_le (x / s)
  have e : (pyround (x/s) : ℚ) * s - x = ((pyround (x/s) : ℚ) - x/s) * s := by
    field_simp
  rw [e, abs_mul, abs_of_pos hs]
  calc |(pyround (x/s) : ℚ) - x/s| * s ≤ (1/2) * s :=
        mul_le_mul_of_nonneg_right h hs.le
    _ = s/2 := by ring

/-- The coordinate snapped by `_grid_snap` is a nearest multiple of the
spacing. -/
theorem grid_snap_coord_nearest (s : ℚ) (hs : s ≠ 0) (x : ℚ) (b : ℤ) :
    |(pyround (x / s) : ℚ) * s - x| ≤ |(b : ℚ) * s - x| := by
  have h := pyround_nearest (x / s) b
  have e1 : (pyround (x/s) : ℚ) * s - x = ((pyround (x/s) : ℚ) - x/s) * s := by
    field_simp
  have e2 : (b:ℚ) * s - x = ((b:ℚ) - x/s) * s := by field_simp
  rw [e1, e2, abs_mul, abs_mul]
  exact mul_le_mul_of_nonneg_right h (abs_nonneg s)

/-- `mapFromScene` is a left inverse of `mapToScene` when scales are
nonzero. -/
theorem mapFromScene_mapToScene (T : ViewT) (p : ℚ × ℚ)
    (hsx : T.sx ≠ 0) (hsy : T.sy ≠ 0) :
    mapFromScene T (mapToScene T p) = p := by
  unfold mapFromScene mapToScene
  rw [Prod.ext_iff]
  refine ⟨?_, ?_⟩ <;> field_simp

/-- `mapToScene` is a left inverse of `mapFromScene` when scales are
nonzero. -/
theorem mapToScene_mapFromScene (T : ViewT) (w : ℚ × ℚ)
    (hsx : T.sx ≠ 0) (hsy : T.sy ≠ 0) :
    mapToScene T (mapFromScene T w) = w := by
  unfold mapFromScene mapToScene
  rw [Prod.ext_iff]
  refine ⟨?_, ?_⟩ <;> field_simp

/-- `snapDecision` returns a point exactly when snapping is enabled, the mode
is GRID, the point is the grid candidate, and the pixel-space Manhattan
distance to the pointer is within tolerance. -/
theorem snapDecision_eq_some_iff (st : CanvasState) (p sp : ℚ × ℚ) :
    snapDecision st p = some sp ↔
      st.snap_enabled = true ∧ st.snap_mode = SnapMode.GRID ∧
      sp = grid_snap st.grid_minor (mapToScene st.view p) ∧
      manhattanLength
          (mapFromScene st.view (grid_snap st.grid_minor (mapToScene st.view p)) - p)
        ≤ st.snap_tolerance_pixels := by
  unfold snapDecision
  split_ifs with hg hd
  · constructor
    · intro h
      exact ⟨hg.1, hg.2, (Option.some_inj.mp h).symm, hd⟩
    · rintro ⟨-, -, rfl, -⟩
      rfl
  · constructor
    · intro h
      exact h.elim
    · rintro ⟨-, -, -, hd2⟩
      exact absurd hd2 hd
  · constructor
    · intro h
      exact h.elim
    · rintro ⟨he, hm, -, -⟩
      exact absurd ⟨he, hm⟩ hg

/-- `snapDecision` returns nothing exactly when the guard or the tolerance
test fails. -/
theorem snapDecision_eq_none_iff (st : CanvasState) (p : ℚ × ℚ) :
    snapDecision st p = none ↔
      ¬ (st.snap_enabled = true ∧ st.snap_mode = SnapMode.GRID ∧
         manhattanLength
             (mapFromScene st.view (grid_snap st.grid_minor (mapToScene st.view p)) - p)
           ≤ st.snap_tolerance_pixels) := by
  unfold snapDecision
  split_ifs with hg hd
  · exact iff_of_false not_false (fun h => h ⟨hg.1, hg.2, hd⟩)
  · exact iff_of_true rfl (fun h => hd h.2.2)
  · exact iff_of_true rfl (fun h => hg ⟨h.1, h.2.1⟩)

/-- **C1**: For every pointer position (whose scene image is the raw world
point), grid spacing `s > 0`, invertible view transform, and tolerance, the
snap operation computes the candidate by rounding each coordinate of the raw
world point to a nearest multiple of `s`, converts candidate and raw point to
pixel space, and returns the candidate exactly when the pixel-space Manhattan
distance between them is within the tolerance, and no snap point otherwise. -/
theorem grid_snap_spec (st : CanvasState) (p : ℚ × ℚ)
    (hen : st.snap_enabled = true) (hmode : st.snap_mode = SnapMode.GRID)
    (hs : 0 < st.grid_minor) (hsx : st.view.sx ≠ 0) (hsy : st.view.sy ≠ 0) :
    mapFromScene st.view (mapToScene st.view p) = p ∧
    grid_snap st.grid_minor (mapToScene st.view p) =
      ((pyround ((mapToScene st.view p).1 / st.grid_minor) : ℚ) * st.grid_minor,
       (pyround ((mapToScene st.view p).2 / st.grid_minor) : ℚ) * st.grid_minor) ∧
    |(grid_snap st.grid_minor (mapToScene st.view p)).1 - (mapToScene st.view p).1|
        ≤ st.grid_minor / 2 ∧
    |(grid_snap st.grid_minor (mapToScene st.view p)).2 - (mapToScene st.view p).2|
        ≤ st.grid_minor / 2 ∧
    (∀ b : ℤ, |(grid_snap st.grid_minor (mapToScene st.view p)).1 - (mapToScene st.view p).1|
        ≤ |(b : ℚ) * st.grid_minor - (mapToScene st.view p).1|) ∧
    (∀ b : ℤ, |(grid_snap st.grid_minor (mapToScene st.view p)).2 - (mapToScene st.view p).2|
        ≤ |(b : ℚ) * st.grid_minor - (mapToScene st.view p).2|) ∧
    (snapDecision st p = some (grid_snap st.grid_minor (mapToScene st.view p)) ↔
      manhattanLength
          (mapFromScene st.view (grid_snap st.grid_minor (mapToScene st.view p))
            - mapFromScene st.view (mapToScene st.view p))
        ≤ st.snap_tolerance_pixels) ∧
    (snapDecision st p = none ↔
      ¬ manhattanLength
          (mapFromScene st.view (grid_snap st.grid_minor (mapToScene st.view p))
            - mapFromScene st.view (mapToScene st.view p))
        ≤ st.snap_tolerance_pixels) := by
  have hinv := mapFromScene_mapToScene st.view p hsx hsy
  refine ⟨hinv, rfl, grid_snap_coord_close _ hs _, grid_snap_coord_close _ hs _,
    fun b => grid_snap_coord_nearest _ hs.ne' _ b,
    fun b => grid_snap_coord_nearest _ hs.ne' _ b, ?_, ?_⟩
  · rw [snapDecision_eq_some_iff, hinv]
    constructor
    · rintro ⟨-, -, -, hd⟩
      exact hd
    · intro hd
      exact ⟨hen, hmode, rfl, hd⟩
  · rw [snapDecision_eq_none_iff, hinv]
    constructor
    · intro hd hdist
      exact hd ⟨hen, hmode, hdist⟩
    · intro hdist h
      exact hdist h.2.2

/-- Witness for `grid_snap_spec` at the fresh canvas and pointer `(24, 1)`. -/
theorem grid_snap_spec_witness :
    mapFromScene initialCanvas.view (mapToScene initialCanvas.view (24, 1)) = (24, 1) ∧
    |(grid_snap initialCanvas.grid_minor (mapToScene initialCanvas.view (24, 1))).1
        - (mapToScene initialCanvas.view (24, 1)).1| ≤ initialCanvas.grid_minor / 2 := by
  have h := grid_snap_spec initialCanvas (24, 1) rfl rfl
    (by norm_num [initialCanvas]) (by norm_num [initialCanvas]) (by norm_num [initialCanvas])
  exact ⟨h.1, h.2.2.1⟩

/-- **C7**: with snapping disabled or the mode set to NONE, the snap
operation reports no snap point no matter where the pointer is, and the
`mouseMoved` signal carries the raw scene position with `snapped = false`. -/
theorem snap_disabled_no_snap (st : CanvasState) (p : ℚ × ℚ)
    (h : st.snap_enabled = false ∨ st.snap_mode = SnapMode.NONE) :
    snapDecision st p = none ∧
    (mouseMoveEvent st p).1.snap_point = none ∧
    (mouseMoveEvent st p).2.snapped = false ∧
    (mouseMoveEvent st p).2.x = (mapToScene st.view p).1 ∧
    (mouseMoveEvent st p).2.y = (mapToScene st.view p).2 := by
  have hd : snapDecision st p = none := by
    rw [snapDecision_eq_none_iff]
    rintro ⟨he, hm, -⟩
    rcases h with h | h
    · rw [h] at he
      exact Bool.false_ne_true he
    · rw [h] at hm
      exact SnapMode.noConfusion hm
  refine ⟨hd, ?_, ?_, ?_, ?_⟩ <;> simp [mouseMoveEvent, hd]

/-- Witness for `snap_disabled_no_snap`: snap disabled, pointer exactly on a
grid point. -/
theorem snap_disabled_no_snap_witness :
    snapDecision (set_snap_enabled initialCanvas false) (25, 0) = none ∧
    (mouseMoveEvent (set_snap_enabled initialCanvas false) (25, 0)).2.snapped = false := by
  have h := snap_disabled_no_snap (set_snap_enabled initialCanvas false) (25, 0) (Or.inl rfl)
  exact ⟨h.1, h.2.2.1⟩

/-- **C8**: snap is monotone in the tolerance: a successful snap at tolerance
`t1 ≤ t2` stays the same successful snap at tolerance `t2`. -/
theorem snap_tolerance_monotone (st : CanvasState) (p sp : ℚ × ℚ) (t1 t2 : ℚ)
    (h12 : t1 ≤ t2)
    (h1 : snapDecision { st with snap_tolerance_pixels := t1 } p = some sp) :
    snapDecision { st with snap_tolerance_pixels := t2 } p = some sp := by
  rw [snapDecision_eq_some_iff] at h1 ⊢
  obtain ⟨he, hm, hsp, hd⟩ := h1
  exact ⟨he, hm, hsp, le_trans hd h12⟩

/-- Witness for `snap_tolerance_monotone`: the snap of `(24, 1)` at tolerance
14 survives raising the tolerance to 20. -/
theorem snap_tolerance_monotone_witness :
    snapDecision { initialCanvas with snap_tolerance_pixels := 20 } (24, 1) = some (25, 0) := by
  refine snap_tolerance_monotone initialCanvas (24, 1) (25, 0) 14 20 (by norm_num) ?_
  rw [snapDecision_eq_some_iff]
  refine ⟨rfl, rfl, ?_, ?_⟩ <;>
    norm_num [initialCanvas, grid_snap, pyround, Int.fract, mapToScene, mapFromScene,
      manhattanLength, Prod.ext_iff]

/-- **C9**: snapping a point whose coordinates are exact multiples of the
grid spacing (snapping enabled, GRID mode, non-negative tolerance) returns
that same point. -/
theorem snap_idempotent_on_grid (st : CanvasState) (a b : ℤ)
    (hen : st.snap_enabled = true) (hmode : st.snap_mode = SnapMode.GRID)
    (hs : 0 < st.grid_minor) (htol : 0 ≤ st.snap_tolerance_pixels)
    (hsx : st.view.sx ≠ 0) (hsy : st.view.sy ≠ 0) :
    snapDecision st (mapFromScene st.view ((a : ℚ) * st.grid_minor, (b : ℚ) * st.grid_minor))
      = some ((a : ℚ) * st.grid_minor, (b : ℚ) * st.grid_minor) ∧
    (mouseMoveEvent st
        (mapFromScene st.view ((a : ℚ) * st.grid_minor, (b : ℚ) * st.grid_minor))).1.snap_point
      = some ((a : ℚ) * st.grid_minor, (b : ℚ) * st.grid_minor) := by
  have hw : mapToScene st.view
      (mapFromScene st.view ((a:ℚ) * st.grid_minor, (b:ℚ) * st.grid_minor))
      = ((a:ℚ) * st.grid_minor, (b:ℚ) * st.grid_minor) :=
    mapToScene_mapFromScene _ _ hsx hsy
  have hcand : grid_snap st.grid_minor ((a:ℚ) * st.grid_minor, (b:ℚ) * st.grid_minor)
      = ((a:ℚ) * st.grid_minor, (b:ℚ) * st.grid_minor) := by
    unfold grid_snap
    have hx : (a:ℚ) * st.grid_minor / st.grid_minor = (a:ℚ) := by
      field_simp
    have hy : (b:ℚ) * st.grid_minor / st.grid_minor = (b:ℚ) := by
      field_simp
    rw [Prod.ext_iff]
    constructor
    · simp only
      rw [hx, pyround_intCast]
    · simp only
      rw [hy, pyround_intCast]
  have hmain : snapDecision st
      (mapFromScene st.view ((a : ℚ) * st.grid_minor, (b : ℚ) * st.grid_minor))
      = some ((a : ℚ) * st.grid_minor, (b : ℚ) * st.grid_minor) := by
    rw [snapDecision_eq_some_iff, hw, hcand]
    refine ⟨hen, hmode, rfl, ?_⟩
    rw [sub_self]
    simpa [manhattanLength] using htol
  exact ⟨hmain, by simp [mouseMoveEvent, hmain]⟩

/-- Witness for `snap_idempotent_on_grid`: the grid point `(25, 0)` of the
fresh canvas snaps to itself. -/
theorem snap_idempotent_on_grid_witness :
    snapDecision initialCanvas
        (mapFromScene initialCanvas.view
          (((1:ℤ) : ℚ) * initialCanvas.grid_minor, ((0:ℤ) : ℚ) * initialCanvas.grid_minor))
      = some (((1:ℤ) : ℚ) * initialCanvas.grid_minor, ((0:ℤ) : ℚ) * initialCanvas.grid_minor) := by
  exact (snap_idempotent_on_grid initialCanvas 1 0 rfl rfl
    (by norm_num [initialCanvas]) (by norm_num [initialCanvas])
    (by norm_num [initialCanvas]) (by norm_num [initialCanvas])).1

/-- **C6**: with grid spacing 25, scale 1, tolerance 14: the raw point
`(37, 12)` has candidate `(25, 0)` at Manhattan distance `24 > 14`, so no
snap happens and the raw point is reported; the raw point `(24, 1)` has
candidate `(25, 0)` at distance `2 ≤ 14`, so the snapped point `(25, 0)` is
reported. -/
theorem concrete_snap_scenarios :
    grid_snap 25 (37, 12) = (25, 0) ∧
    manhattanLength ((25, 0) - ((37 : ℚ), (12 : ℚ))) = 24 ∧
    ¬ ((24:ℚ) ≤ 14) ∧
    (mouseMoveEvent initialCanvas (37, 12)).1.snap_point = none ∧
    (mouseMoveEvent initialCanvas (37, 12)).2 =
      { x := 37, y := 12, snapped := false, raw_x := 37, raw_y := 12 } ∧
    grid_snap 25 (24, 1) = (25, 0) ∧
    manhattanLength ((25, 0) - ((24 : ℚ), (1 : ℚ))) = 2 ∧
    ((2:ℚ) ≤ 14) ∧
    (mouseMoveEvent initialCanvas (24, 1)).1.snap_point = some (25, 0) ∧
    (mouseMoveEvent initialCanvas (24, 1)).2 =
      { x := 25, y := 0, snapped := true, raw_x := 24, raw_y := 1 } := by
  refine ⟨?_, ?_, by norm_num, ?_, ?_, ?_, ?_, by norm_num, ?_, ?_⟩ <;>
    norm_num [mouseMoveEvent, snapDecision, initialCanvas, grid_snap, pyround,
      Int.fract, mapToScene, mapFromScene, manhattanLength, Prod.ext_iff,
      MouseMoved.mk.injEq]

/-- **C2** counterexample: moving the pointer of a fresh canvas to `(24, 1)`
stores the snap point `(25, 0)`; switching the snap mode to NONE leaves that
stale snap point stored, violating the claimed invariant. -/
theorem snap_invariant_cex :
    ¬ snapInvariant (set_snap_mode (mouseMoveEvent initialCanvas (24, 1)).1 SnapMode.NONE) := by
  have hst : (mouseMoveEvent initialCanvas (24, 1)).1.snap_point = some (25, 0) := by
    norm_num [mouseMoveEvent, snapDecision, initialCanvas, grid_snap, pyround,
      Int.fract, mapToScene, mapFromScene, manhattanLength, Prod.ext_iff]
  intro hInv
  rw [snapInvariant] at hInv
  have hmode : (set_snap_mode (mouseMoveEvent initialCanvas (24, 1)).1 SnapMode.NONE).snap_mode
      = SnapMode.NONE := rfl
  have hpt : (set_snap_mode (mouseMoveEvent initialCanvas (24, 1)).1 SnapMode.NONE).snap_point
      = some (25, 0) := hst
  rw [hpt, hmode] at hInv
  obtain ⟨hh, -, -⟩ := hInv.mp rfl
  exact SnapMode.noConfusion hh

/-- **C2 (amended)**: after every pointer move the invariant holds, and
`set_snap_enabled false` clears the stored snap point; but `set_snap_mode`
leaves the stored snap point unchanged (and `set_snap_enabled` does not
recompute it), so switching the mode to NONE can leave a stale snap point
until the next pointer move. -/
theorem snap_invariant_amended (st : CanvasState) (p : ℚ × ℚ) (m : SnapMode) (e : Bool) :
    snapInvariant (mouseMoveEvent st p).1 ∧
    (set_snap_enabled st false).snap_point = none ∧
    (set_snap_mode st m).snap_point = st.snap_point ∧
    (set_snap_enabled st e).snap_point = (if e then st.snap_point else none) := by
  refine ⟨?_, rfl, rfl, rfl⟩
  unfold snapInvariant
  cases hd : snapDecision st p with
  | some sp =>
      have hd2 := hd
      rw [snapDecision_eq_some_iff] at hd2
      obtain ⟨he, hm, hsp, hdist⟩ := hd2
      simp only [mouseMoveEvent, hd]
      exact iff_of_true rfl ⟨hm, he, hdist⟩
  | none =>
      have hd2 := hd
      rw [snapDecision_eq_none_iff] at hd2
      simp only [mouseMoveEvent, hd]
      exact iff_of_false (by simp) (fun h => hd2 ⟨h.2.1, h.1, h.2.2⟩)

/-- `loopCount` satisfies the loop bounds: every index below it stays within
the limit and the next step exceeds it. -/
theorem loopCount_spec (s : ℤ) (hs : 0 < s) (limit : ℚ) (x : ℤ) :
    (∀ i : ℕ, i < loopCount s limit x → ((x + (i : ℤ) * s : ℤ) : ℚ) ≤ limit) ∧
    limit < ((x + (loopCount s limit x : ℤ) * s : ℤ) : ℚ) := by
  have hsq : (0 : ℚ) < (s : ℚ) := by exact_mod_cast hs
  unfold loopCount
  split_ifs with h
  · have hd : (0 : ℚ) ≤ (limit - x) / (s : ℚ) := div_nonneg (by linarith) hsq.le
    have hm : 0 ≤ ⌊(limit - x) / (s : ℚ)⌋ := Int.floor_nonneg.mpr hd
    constructor
    · intro i hi
      have hi2 : ((i : ℤ) : ℚ) ≤ (limit - x) / (s : ℚ) := by
        have hle : (i : ℤ) ≤ ⌊(limit - x) / (s : ℚ)⌋ := by omega
        exact le_trans (by exact_mod_cast hle) (Int.floor_le _)
      have hi4 : ((i : ℤ) : ℚ) * s ≤ limit - x := by
        rw [← le_div_iff₀ hsq]
        exact hi2
      push_cast at hi4 ⊢
      linarith
    · have hlt : (limit - x) / (s : ℚ) < (⌊(limit - x) / (s : ℚ)⌋ : ℚ) + 1 :=
        Int.lt_floor_add_one _
      have h2 : limit - x < ((⌊(limit - x) / (s : ℚ)⌋ : ℚ) + 1) * s := by
        rw [← div_lt_iff₀ hsq]
        exact hlt
      have h3 : (((⌊(limit - x) / (s : ℚ)⌋ + 1).toNat : ℤ) : ℚ)
          = (⌊(limit - x) / (s : ℚ)⌋ : ℚ) + 1 := by
        have h4 : ((⌊(limit - x) / (s : ℚ)⌋ + 1).toNat : ℤ)
            = ⌊(limit - x) / (s : ℚ)⌋ + 1 := by omega
        rw [h4]
        push_cast
        ring
      have h5 : (((⌊(limit - x) / (s : ℚ)⌋ + 1).toNat : ℤ) : ℚ) * s
          = ((⌊(limit - x) / (s : ℚ)⌋ : ℚ) + 1) * s := by rw [h3]
      push_cast at h5 ⊢
      linarith
  · constructor
    · intro i hi
      omega
    · push_cast
      linarith [lt_of_not_le h]

/-- `gridLoop` is the map of its index over `List.range` of the closed-form
count. -/
theorem gridLoop_eq_map (s : ℤ) (hs : 0 < s) (k : ℕ) (limit : ℚ) :
    ∀ (n : ℕ) (x : ℤ) (idx : ℕ),
      (∀ i : ℕ, i < n → ((x + (i : ℤ) * s : ℤ) : ℚ) ≤ limit) →
      (limit < ((x + (n : ℤ) * s : ℤ) : ℚ)) →
      gridLoop s hs k limit x idx
        = (List.range n).map
            (fun (i : ℕ) => (x + (i : ℤ) * s, decide ((idx + i) % k = 0))) := by
  intro n
  induction n with
  | zero =>
      intro x idx h1 h2
      rw [gridLoop, dif_neg]
      · simp
      · push_cast at h2
        intro hle
        linarith
  | succ n ih =>
      intro x idx h1 h2
      have hx : ((x : ℤ) : ℚ) ≤ limit := by
        have h0 := h1 0 (by omega)
        push_cast at h0
        linarith
      rw [gridLoop, dif_pos hx]
      rw [ih (x + s) (idx + 1) ?hbound ?hlast]
      case hbound =>
        intro i hi
        have hstep := h1 (i + 1) (by omega)
        push_cast at hstep ⊢
        linarith
      case hlast =>
        push_cast at h2 ⊢
        linarith
      rw [List.range_succ_eq_map, List.map_cons, List.map_map]
      congr 1
      · norm_num
      · apply List.map_congr_left
        intro i hi
        simp only [Function.comp_apply]
        have harg : idx + 1 + i = idx + (i + 1) := by omega
        rw [Prod.ext_iff]
        constructor
        · push_cast
          ring
        · rw [harg]

/-- Truncation toward zero overshoots its argument by less than one. -/
theorem pyint_lt_add_one (q : ℚ) : q < (pyint q : ℚ) + 1 := by
  unfold pyint
  split_ifs with h
  · exact Int.lt_floor_add_one q
  · push_cast
    have h2 : (⌊-q⌋ : ℚ) ≤ -q := Int.floor_le _
    linarith

/-- The start coordinate is a multiple of the spacing. -/
theorem gridStart_dvd (s : ℤ) (m : ℚ) : s ∣ gridStart s m := by
  unfold gridStart
  have h := Int.ediv_add_emod (pyint m) s
  exact ⟨pyint m / s, by linarith⟩

/-- The start coordinate does not exceed the truncated minimum. -/
theorem gridStart_le (s : ℤ) (hs : 0 < s) (m : ℚ) : gridStart s m ≤ pyint m := by
  unfold gridStart
  have h := Int.emod_nonneg (pyint m) (ne_of_gt hs)
  omega

/-- The start coordinate is within one spacing of the truncated minimum. -/
theorem lt_gridStart_add (s : ℤ) (hs : 0 < s) (m : ℚ) :
    pyint m < gridStart s m + s := by
  unfold gridStart
  have h := Int.emod_lt_of_pos (pyint m) hs
  omega

/-- `gridAxisLines` as an explicit `List.range` map. -/
theorem gridAxisLines_eq_map (s : ℤ) (hs : 0 < s) (k : ℕ) (lo hi : ℚ) :
    gridAxisLines s hs k lo hi
      = (List.range (loopCount s hi (gridStart s lo))).map
          (fun (i : ℕ) => (gridStart s lo + (i : ℤ) * s, decide (i % k = 0))) := by
  unfold gridAxisLines
  rw [gridLoop_eq_map s hs k hi (loopCount s hi (gridStart s lo)) (gridStart s lo) 0
    (loopCount_spec s hs hi (gridStart s lo)).1
    (loopCount_spec s hs hi (gridStart s lo)).2]
  apply List.map_congr_left
  intro i hi2
  rw [Nat.zero_add]

/-- **C3 (amended)**: for every visible range and positive spacing, the grid
renderer starts each axis at the largest grid multiple that is `≤` the
*truncation toward zero* of the axis minimum (`int(min) - int(min) % s`),
steps by the minor spacing until exceeding the maximum, and classifies the
line at 0-based index `i` as major exactly when `i % major_every == 0`.  (For
a negative fractional minimum whose truncation crosses a multiple, this start
differs from `floor(min / s) * s`, which the original claim asserted.) -/
theorem grid_axis_lines_spec (s : ℤ) (hs : 0 < s) (k : ℕ) (lo hi : ℚ) :
    (s ∣ gridStart s lo) ∧
    gridStart s lo ≤ pyint lo ∧
    pyint lo < gridStart s lo + s ∧
    (∀ i : ℕ, ∀ h : i < (gridAxisLines s hs k lo hi).length,
        (gridAxisLines s hs k lo hi).get ⟨i, h⟩
          = (gridStart s lo + (i : ℤ) * s, decide (i % k = 0))) ∧
    (∀ i : ℕ, i < (gridAxisLines s hs k lo hi).length →
        ((gridStart s lo + (i : ℤ) * s : ℤ) : ℚ) ≤ hi) ∧
    hi < ((gridStart s lo + ((gridAxisLines s hs k lo hi).length : ℤ) * s : ℤ) : ℚ) := by
  have hlen : (gridAxisLines s hs k lo hi).length = loopCount s hi (gridStart s lo) := by
    rw [gridAxisLines_eq_map]
    simp
  refine ⟨gridStart_dvd s lo, gridStart_le s hs lo, lt_gridStart_add s hs lo, ?_, ?_, ?_⟩
  · intro i h
    rw [List.get_eq_getElem]
    have h2 : i < loopCount s hi (gridStart s lo) := by
      rw [← hlen]
      exact h
    simp [gridAxisLines_eq_map]
  · intro i h
    rw [hlen] at h
    exact (loopCount_spec s hs hi (gridStart s lo)).1 i h
  · rw [hlen]
    exact (loopCount_spec s hs hi (gridStart s lo)).2

/-- Witness for `grid_axis_lines_spec` on the axis range `[0, 30]` with the
source constants 25 and 5. -/
theorem grid_axis_lines_spec_witness :
    ((25 : ℤ) ∣ gridStart 25 0) ∧
    (30 : ℚ) < ((gridStart 25 0
        + ((gridAxisLines 25 (by norm_num) 5 0 30).length : ℤ) * 25 : ℤ) : ℚ) := by
  have h := grid_axis_lines_spec 25 (by norm_num) 5 0 30
  exact ⟨h.1, h.2.2.2.2.2⟩

/-- **C3** counterexample: for the visible minimum `-1/2` the code starts the
axis at 0 (Python truncation toward zero), while the claimed start
`floor(min / spacing) * spacing` is `-25`; the actual first line 0 is not `≤`
the rectangle minimum `-1/2`. -/
theorem grid_start_cex :
    (gridAxisLines 25 (by norm_num) 5 (-(1:ℚ)/2) 10).head? = some (0, true) ∧
    (25 : ℤ) * ⌊(-(1:ℚ)/2) / 25⌋ = -25 ∧
    ¬ ((0 : ℚ) ≤ -(1:ℚ)/2) := by
  refine ⟨?_, by norm_num, by norm_num⟩
  rw [gridAxisLines_eq_map]
  have h1 : gridStart 25 (-(1:ℚ)/2) = 0 := by
    norm_num [gridStart, pyint]
  have h2 : loopCount 25 10 (gridStart 25 (-(1:ℚ)/2)) = 1 := by
    rw [h1]
    norm_num [loopCount]
  rw [h2, h1]
  simp [List.range_succ]

/-- A degenerate axis range (`min = max`) produces at most one line. -/
theorem loopCount_self_le_one (s : ℤ) (hs : 0 < s) (m : ℚ) :
    loopCount s m (gridStart s m) ≤ 1 := by
  have hsq : (0 : ℚ) < (s : ℚ) := by exact_mod_cast hs
  unfold loopCount
  split_ifs with h
  · have h1 : m < (pyint m : ℚ) + 1 := pyint_lt_add_one m
    have h2 : pyint m + 1 ≤ gridStart s m + s := lt_gridStart_add s hs m
    have h2q : ((pyint m : ℤ) : ℚ) + 1 ≤ ((gridStart s m : ℤ) : ℚ) + s := by
      exact_mod_cast h2
    have h3 : m - gridStart s m < s := by
      push_cast at h2q
      linarith
    have h4 : (m - gridStart s m) / (s : ℚ) < 1 := by
      rw [div_lt_one hsq]
      exact h3
    have h5 : ⌊(m - gridStart s m) / (s : ℚ)⌋ < 1 := by
      rw [Int.floor_lt]
      push_cast
      exact h4
    omega
  · omega

/-- **C5 (amended)**: the grid spacing used by `drawBackground` is the fixed
constant 25, which is positive and never mutated, so for every visible
rectangle both line-generation loops terminate with the closed-form number of
lines (no validation or clamping code exists, and none is needed for the
constant); a zero-size rectangle yields at most one (degenerate) line per
axis — not an error, but not always an empty line set either. -/
theorem drawBackground_safe (rect : RectF) :
    (0 : ℤ) < DrawingView.grid_minor ∧
    (drawBackgroundLines rect).1.length
        = loopCount DrawingView.grid_minor rect.right
            (gridStart DrawingView.grid_minor rect.left) ∧
    (drawBackgroundLines rect).2.length
        = loopCount DrawingView.grid_minor rect.bottom
            (gridStart DrawingView.grid_minor rect.top) ∧
    (rect.left = rect.right → (drawBackgroundLines rect).1.length ≤ 1) ∧
    (rect.top = rect.bottom → (drawBackgroundLines rect).2.length ≤ 1) := by
  have hpos : (0 : ℤ) < DrawingView.grid_minor := by
    norm_num [DrawingView.grid_minor]
  have hl1 : (drawBackgroundLines rect).1.length
      = loopCount DrawingView.grid_minor rect.right
          (gridStart DrawingView.grid_minor rect.left) := by
    simp [drawBackgroundLines, gridAxisLines_eq_map]
  have hl2 : (drawBackgroundLines rect).2.length
      = loopCount DrawingView.grid_minor rect.bottom
          (gridStart DrawingView.grid_minor rect.top) := by
    simp [drawBackgroundLines, gridAxisLines_eq_map]
  refine ⟨hpos, hl1, hl2, ?_, ?_⟩
  · intro hzero
    rw [hl1, ← hzero]
    exact loopCount_self_le_one DrawingView.grid_minor hpos rect.left
  · intro hzero
    rw [hl2, ← hzero]
    exact loopCount_self_le_one DrawingView.grid_minor hpos rect.top

/-- Witness for `drawBackground_safe` at the zero-size rectangle at the
origin. -/
theorem drawBackground_safe_witness :
    (drawBackgroundLines { left := 0, top := 0, right := 0, bottom := 0 }).1.length ≤ 1 := by
  exact (drawBackground_safe { left := 0, top := 0, right := 0, bottom := 0 }).2.2.2.1 rfl

/-- **C5** counterexample: the zero-size rectangle at the origin yields a
non-empty line set (one degenerate vertical line at `x = 0`), refuting the
claim that a zero-size viewport rectangle yields an empty line set. -/
theorem zero_rect_lines_cex :
    (drawBackgroundLines { left := 0, top := 0, right := 0, bottom := 0 }).1 = [(0, true)] ∧
    (drawBackgroundLines { left := 0, top := 0, right := 0, bottom := 0 }).1 ≠ [] := by
  have h : (drawBackgroundLines { left := 0, top := 0, right := 0, bottom := 0 }).1
      = [(0, true)] := by
    simp only [drawBackgroundLines]
    rw [gridAxisLines_eq_map]
    have h1 : gridStart DrawingView.grid_minor 0 = 0 := by
      norm_num [gridStart, pyint, DrawingView.grid_minor]
    have h2 : loopCount DrawingView.grid_minor 0 (gridStart DrawingView.grid_minor 0) = 1 := by
      rw [h1]
      norm_num [loopCount, DrawingView.grid_minor]
    rw [h2, h1]
    simp [List.range_succ]
  exact ⟨h, by rw [h]; exact List.cons_ne_nil _ _⟩

/-- `ok` is precisely `error = none`. -/
theorem cargar_archivo_ok_iff (env : Env) (path : String) :
    (cargar_archivo env path).ok = true ↔ (cargar_archivo env path).error = none := by
  rw [LoadResult.ok, Option.isNone_iff_eq_none]

/-- The unsupported-extension message is never empty. -/
theorem unsupported_message_ne (t : String) :
    ("Extensión no soportada: " ++ t) ≠ "" := by
  intro hc
  have hlen := congrArg String.length hc
  rw [String.length_append] at hlen
  simp at hlen
  exact absurd hlen.1 (by decide)

/-- Every error produced by `_cargar_dwg` has a non-empty message. -/
theorem _cargar_dwg_error_message (env : Env) (path : String) :
    ∀ e, _cargar_dwg env path = Sum.inr e → e.message ≠ "" := by
  intro e he
  unfold _cargar_dwg at he
  by_cases h1 : env.ezdxfAvailable = false
  · rw [if_pos h1] at he
    injection he with he2
    rw [← he2]
    simp
  · rw [if_neg h1] at he
    by_cases h2 : env.isfile path = false
    · rw [if_pos h2] at he
      injection he with he2
      rw [← he2]
      simp
    · rw [if_neg h2] at he
      rcases hres : env.readDwg path with msg | n <;> rw [hres] at he <;> dsimp only at he
      · injection he with he2
        rw [← he2]
        simp
      · exact Sum.noConfusion he

/-- Every error produced by `_cargar_pdf` has a non-empty message. -/
theorem _cargar_pdf_error_message (env : Env) (path : String) :
    ∀ e, _cargar_pdf env path = Sum.inr e → e.message ≠ "" := by
  intro e he
  unfold _cargar_pdf at he
  by_cases h1 : env.isfile path = false
  · rw [if_pos h1] at he
    injection he with he2
    rw [← he2]
    simp
  · rw [if_neg h1] at he
    by_cases h2 : env.fitzAvailable = true
    · rw [if_pos h2] at he
      rcases hres : env.fitzPageCount path with msg | n <;> rw [hres] at he <;>
        dsimp only at he
      · by_cases h3 : env.pypdf2Available = false
        · rw [if_pos h3] at he
          injection he with he2
          rw [← he2]
          simp
        · rw [if_neg h3] at he
          rcases hres2 : env.pypdf2PageCount path with msg2 | n2 <;> rw [hres2] at he <;>
            dsimp only at he
          · injection he with he2
            rw [← he2]
            simp
          · exact Sum.noConfusion he
      · exact Sum.noConfusion he
    · rw [if_neg h2] at he
      by_cases h4 : env.pypdf2Available = true
      · rw [if_pos h4] at he
        rcases hres2 : env.pypdf2PageCount path with msg2 | n2 <;> rw [hres2] at he <;>
          dsimp only at he
        · injection he with he2
          rw [← he2]
          simp
        · exact Sum.noConfusion he
      · rw [if_neg h4] at he
        injection he with he2
        rw [← he2]
        simp

/-- Case analysis on the result of `cargar_archivo`: the result is exactly
one of five shapes, and every error shape carries a non-empty message. -/
theorem cargar_archivo_shape (env : Env) (path : String) :
    (∃ err, cargar_archivo env path
        = { path := path, type := "unknown", dwg := none, pdf := none, error := some err }
        ∧ err.message ≠ "") ∨
    (∃ info, cargar_archivo env path
        = { path := path, type := "dwg", dwg := some info, pdf := none, error := none }) ∨
    (∃ err, cargar_archivo env path
        = { path := path, type := "dwg", dwg := none, pdf := none, error := some err }
        ∧ err.message ≠ "") ∨
    (∃ info, cargar_archivo env path
        = { path := path, type := "pdf", dwg := none, pdf := some info, error := none }) ∨
    (∃ err, cargar_archivo env path
        = { path := path, type := "pdf", dwg := none, pdf := none, error := some err }
        ∧ err.message ≠ "") := by
  by_cases h1 : pyLower (splitext path).2 ∉ SUPPORTED_EXTENSIONS
  · have heq : cargar_archivo env path = { path := path, type := "unknown", dwg := none, pdf := none, error := some { path := some path, message := "Extensión no soportada: " ++ pyLower (splitext path).2, detail := none } } := by
      unfold cargar_archivo
      rw [if_pos h1]
    exact Or.inl ⟨_, heq, unsupported_message_ne _⟩
  · by_cases h2 : pyLower (splitext path).2 = ".dwg"
    · rcases hres : _cargar_dwg env path with info | err
      · refine Or.inr (Or.inl ⟨info, ?_⟩)
        unfold cargar_archivo
        rw [if_neg h1, if_pos h2, hres]
      · refine Or.inr (Or.inr (Or.inl ⟨err, ?_, _cargar_dwg_error_message env path err hres⟩))
        unfold cargar_archivo
        rw [if_neg h1, if_pos h2, hres]
    · by_cases h3 : pyLower (splitext path).2 = ".pdf"
      · rcases hres : _cargar_pdf env path with info | err
        · refine Or.inr (Or.inr (Or.inr (Or.inl ⟨info, ?_⟩)))
          unfold cargar_archivo
          rw [if_neg h1, if_neg h2, if_pos h3, hres]
        · refine Or.inr (Or.inr (Or.inr (Or.inr
            ⟨err, ?_, _cargar_pdf_error_message env path err hres⟩)))
          unfold cargar_archivo
          rw [if_neg h1, if_neg h2, if_pos h3, hres]
      · exfalso
        rw [not_not] at h1
        simp [SUPPORTED_EXTENSIONS] at h1
        rcases h1 with h1 | h1
        · exact h2 h1
        · exact h3 h1

/-- A lowered extension of `".dwg"` forces the dwg branch. -/
theorem cargar_archivo_type_dwg (env : Env) (path : String)
    (h : pyLower (splitext path).2 = ".dwg") :
    (cargar_archivo env path).type = "dwg" := by
  unfold cargar_archivo
  rw [h]
  rw [if_neg (by decide), if_pos rfl]
  rcases hres : _cargar_dwg env path with info | err <;> rfl

/-- A lowered extension of `".pdf"` forces the pdf branch. -/
theorem cargar_archivo_type_pdf (env : Env) (path : String)
    (h : pyLower (splitext path).2 = ".pdf") :
    (cargar_archivo env path).type = "pdf" := by
  unfold cargar_archivo
  rw [h]
  rw [if_neg (by decide), if_neg (by decide), if_pos rfl]
  rcases hres : _cargar_pdf env path with info | err <;> rfl

/-- **C4**: for every path and every outcome of the optional libraries,
`cargar_archivo` (through `_cargar_dwg` and `_cargar_pdf`) is a total
function into tagged results: every failure — unsupported extension, missing
file, missing optional dependency, or parse failure (library exceptions are
modelled as `Except.error` values; the source wraps the library calls in
`try/except` blocks that return `LoadError`) — yields a result holding a
structured `LoadError` with a non-empty message and optional detail, never an
uncaught exception, and every success carries the parsed payload. -/
theorem cargar_archivo_no_uncaught (env : Env) (path : String) :
    ((cargar_archivo env path).error = none →
      ((cargar_archivo env path).type = "dwg" ∧ (cargar_archivo env path).dwg.isSome = true) ∨
      ((cargar_archivo env path).type = "pdf" ∧ (cargar_archivo env path).pdf.isSome = true)) ∧
    (∀ e, (cargar_archivo env path).error = some e → e.message ≠ "") ∧
    (pyLower (splitext path).2 ∉ SUPPORTED_EXTENSIONS →
      (cargar_archivo env path).error.isSome = true) ∧
    (pyLower (splitext path).2 = ".pdf" → env.isfile path = false →
      (cargar_archivo env path).error.isSome = true) ∧
    (pyLower (splitext path).2 = ".dwg" → env.ezdxfAvailable = false →
      (cargar_archivo env path).error.isSome = true) ∧
    (pyLower (splitext path).2 = ".pdf" → env.isfile path = true →
      env.fitzAvailable = false → env.pypdf2Available = false →
      (cargar_archivo env path).error.isSome = true) ∧
    (∀ msg, pyLower (splitext path).2 = ".dwg" → env.ezdxfAvailable = true →
      env.isfile path = true → env.readDwg path = Except.error msg →
      (cargar_archivo env path).error
        = some { path := some path, message := "Error al cargar DWG", detail := some msg }) := by
  refine ⟨?_, ?_, ?_, ?_, ?_, ?_, ?_⟩
  · intro hnone
    rcases cargar_archivo_shape env path with ⟨e, he, -⟩ | ⟨i, hi⟩ | ⟨e, he, -⟩ | ⟨i, hi⟩ | ⟨e, he, -⟩
    · rw [he] at hnone
      simp at hnone
    · rw [hi]
      exact Or.inl ⟨rfl, rfl⟩
    · rw [he] at hnone
      simp at hnone
    · rw [hi]
      exact Or.inr ⟨rfl, rfl⟩
    · rw [he] at hnone
      simp at hnone
  · intro e he
    rcases cargar_archivo_shape env path with ⟨e2, he2, hm⟩ | ⟨i, hi⟩ | ⟨e2, he2, hm⟩ | ⟨i, hi⟩ | ⟨e2, he2, hm⟩ <;>
      first
        | (rw [he2] at he
           simp at he
           rw [← he]
           exact hm)
        | (rw [hi] at he
           simp at he)
  · intro h1
    unfold cargar_archivo
    rw [if_pos h1]
    rfl
  · intro hext hfile
    unfold cargar_archivo
    rw [hext, if_neg (by decide), if_neg (by decide), if_pos rfl]
    unfold _cargar_pdf
    rw [if_pos hfile]
    rfl
  · intro hext hdep
    unfold cargar_archivo
    rw [hext, if_neg (by decide), if_pos rfl]
    unfold _cargar_dwg
    rw [if_pos hdep]
    rfl
  · intro hext hfile hfitz hpypdf
    unfold cargar_archivo
    rw [hext, if_neg (by decide), if_neg (by decide), if_pos rfl]
    unfold _cargar_pdf
    rw [if_neg (by simp [hfile]), if_neg (by simp [hfitz]), if_neg (by simp [hpypdf])]
    rfl
  · intro msg hext hdep hfile hread
    unfold cargar_archivo
    rw [hext, if_neg (by decide), if_pos rfl]
    unfold _cargar_dwg
    rw [if_neg (by simp [hdep]), if_neg (by simp [hfile]), hread]

/-- Witness for `cargar_archivo_no_uncaught`: an unsupported extension yields
a structured error. -/
theorem cargar_archivo_no_uncaught_witness :
    (cargar_archivo envAllOk "x.txt").error.isSome = true := by
  exact (cargar_archivo_no_uncaught envAllOk "x.txt").2.2.1 (by decide)

/-- **C10**: every `LoadResult` produced by `cargar_archivo` is consistently
tagged: `ok` holds iff `error` is `None`; a successful result is of type
`"dwg"` with the dwg payload set, or of type `"pdf"` with the pdf payload
set; the two payloads are never both set; and extension matching is
case-insensitive, so paths ending in `.PDF` or `.DWG` are treated as
supported. -/
theorem load_result_tagging (env : Env) (path : String) :
    ((cargar_archivo env path).ok = true ↔ (cargar_archivo env path).error = none) ∧
    ((cargar_archivo env path).ok = true →
      ((cargar_archivo env path).type = "dwg" ∧ (cargar_archivo env path).dwg.isSome = true
        ∧ (cargar_archivo env path).pdf = none) ∨
      ((cargar_archivo env path).type = "pdf" ∧ (cargar_archivo env path).pdf.isSome = true
        ∧ (cargar_archivo env path).dwg = none)) ∧
    ((cargar_archivo env path).dwg = none ∨ (cargar_archivo env path).pdf = none) ∧
    (pyLower (splitext path).2 = ".pdf" → (cargar_archivo env path).type = "pdf") ∧
    (pyLower (splitext path).2 = ".dwg" → (cargar_archivo env path).type = "dwg") ∧
    (cargar_archivo env "PLANO.PDF").type = "pdf" ∧
    (cargar_archivo env "plano.DWG").type = "dwg" := by
  refine ⟨cargar_archivo_ok_iff env path, ?_, ?_, cargar_archivo_type_pdf env path,
    cargar_archivo_type_dwg env path,
    cargar_archivo_type_pdf env "PLANO.PDF" (by decide),
    cargar_archivo_type_dwg env "plano.DWG" (by decide)⟩
  · intro hok
    have hnone := (cargar_archivo_ok_iff env path).mp hok
    rcases cargar_archivo_shape env path with ⟨e, he, -⟩ | ⟨i, hi⟩ | ⟨e, he, -⟩ | ⟨i, hi⟩ | ⟨e, he, -⟩
    · rw [he] at hnone
      simp at hnone
    · rw [hi]
      exact Or.inl ⟨rfl, rfl, rfl⟩
    · rw [he] at hnone
      simp at hnone
    · rw [hi]
      exact Or.inr ⟨rfl, rfl, rfl⟩
    · rw [he] at hnone
      simp at hnone
  · rcases cargar_archivo_shape env path with ⟨e, he, -⟩ | ⟨i, hi⟩ | ⟨e, he, -⟩ | ⟨i, hi⟩ | ⟨e, he, -⟩ <;>
      first
        | (rw [he]; exact Or.inl rfl)
        | (rw [hi]; exact Or.inl rfl)
        | (rw [hi]; exact Or.inr rfl)

/-- Witness for `load_result_tagging`: the upper-case `.PDF` extension is
dispatched to the pdf branch. -/
theorem load_result_tagging_witness :
    (cargar_archivo envAllOk "PLANO.PDF").type = "pdf" := by
  exact (load_result_tagging envAllOk "PLANO.PDF").2.2.2.1 (by decide)
